import Mathlib

/-!
Verification of the classroom-simulation harness
(`python_loading_test_example/classroom_simulation.py`).

The development shallowly embeds the program: JSON documents and Python-level
values become the `Json` type (Python `None` is modelled by `Option`), each
network call takes an `HttpOutcome` describing what the transport returned,
fallible Python code returns `Except PyErr`, and the orchestrated run
`run_simulation` threads an explicit state through the phases of the source
function of the same name, recording a trace of phase-level actions.
-/

namespace ClassroomSim

/-- A model of the JSON values flowing through the simulation's HTTP and
socket payloads. JSON `null` inside a document is `Json.null`; the Python
`None` of a variable that may hold no value is modelled by `Option Json`. -/
inductive Json where
  | null : Json
  | bool (b : Bool) : Json
  | num (n : Int) : Json
  | str (s : String) : Json
  | arr (elems : List Json) : Json
  | obj (fields : List (String × Json)) : Json

mutual

/-- Structural equality test on `Json` (used to build decidable equality). -/
def Json.beq : Json → Json → Bool
  | .null, .null => true
  | .bool a, .bool b => a == b
  | .num a, .num b => a == b
  | .str a, .str b => a == b
  | .arr xs, .arr ys => Json.beqList xs ys
  | .obj xs, .obj ys => Json.beqFields xs ys
  | _, _ => false

/-- Equality test on lists of `Json`. -/
def Json.beqList : List Json → List Json → Bool
  | [], [] => true
  | x :: xs, y :: ys => Json.beq x y && Json.beqList xs ys
  | _, _ => false

/-- Equality test on JSON object field lists. -/
def Json.beqFields : List (String × Json) → List (String × Json) → Bool
  | [], [] => true
  | (k1, v1) :: xs, (k2, v2) :: ys => k1 == k2 && Json.beq v1 v2 && Json.beqFields xs ys
  | _, _ => false

end

mutual

/-- Soundness of `Json.beq`. -/
def Json.eq_of_beq : ∀ a b : Json, Json.beq a b = true → a = b
  | .null, .null, _ => rfl
  | .bool _, .bool _, h => by simpa [Json.beq] using h
  | .num _, .num _, h => by simpa [Json.beq] using h
  | .str _, .str _, h => by simpa [Json.beq] using h
  | .arr xs, .arr ys, h => by
      rw [Json.eqList_of_beq xs ys (by simpa [Json.beq] using h)]
  | .obj xs, .obj ys, h => by
      rw [Json.eqFields_of_beq xs ys (by simpa [Json.beq] using h)]
  | .null, .bool _, h => nomatch h
  | .null, .num _, h => nomatch h
  | .null, .str _, h => nomatch h
  | .null, .arr _, h => nomatch h
  | .null, .obj _, h => nomatch h
  | .bool _, .null, h => nomatch h
  | .bool _, .num _, h => nomatch h
  | .bool _, .str _, h => nomatch h
  | .bool _, .arr _, h => nomatch h
  | .bool _, .obj _, h => nomatch h
  | .num _, .null, h => nomatch h
  | .num _, .bool _, h => nomatch h
  | .num _, .str _, h => nomatch h
  | .num _, .arr _, h => nomatch h
  | .num _, .obj _, h => nomatch h
  | .str _, .null, h => nomatch h
  | .str _, .bool _, h => nomatch h
  | .str _, .num _, h => nomatch h
  | .str _, .arr _, h => nomatch h
  | .str _, .obj _, h => nomatch h
  | .arr _, .null, h => nomatch h
  | .arr _, .bool _, h => nomatch h
  | .arr _, .num _, h => nomatch h
  | .arr _, .str _, h => nomatch h
  | .arr _, .obj _, h => nomatch h
  | .obj _, .null, h => nomatch h
  | .obj _, .bool _, h => nomatch h
  | .obj _, .num _, h => nomatch h
  | .obj _, .str _, h => nomatch h
  | .obj _, .arr _, h => nomatch h

/-- Soundness of `Json.beqList`. -/
def Json.eqList_of_beq : ∀ xs ys : List Json, Json.beqList xs ys = true → xs = ys
  | [], [], _ => rfl
  | x :: xs, y :: ys, h => by
      have hp : Json.beq x y = true ∧ Json.beqList xs ys = true := by
        simpa [Json.beqList, Bool.and_eq_true] using h
      rw [Json.eq_of_beq x y hp.1, Json.eqList_of_beq xs ys hp.2]
  | [], _ :: _, h => nomatch h
  | _ :: _, [], h => nomatch h

/-- Soundness of `Json.beqFields`. -/
def Json.eqFields_of_beq :
    ∀ xs ys : List (String × Json), Json.beqFields xs ys = true → xs = ys
  | [], [], _ => rfl
  | (k1, v1) :: xs, (k2, v2) :: ys, h => by
      have hp : k1 = k2 ∧ Json.beq v1 v2 = true ∧ Json.beqFields xs ys = true := by
        simpa [Json.beqFields, Bool.and_eq_true, and_assoc] using h
      rw [hp.1, Json.eq_of_beq v1 v2 hp.2.1, Json.eqFields_of_beq xs ys hp.2.2]
  | [], _ :: _, h => nomatch h
  | _ :: _, [], h => nomatch h

end

mutual

/-- Reflexivity of `Json.beq`. -/
def Json.beq_refl : ∀ a : Json, Json.beq a a = true
  | .null => rfl
  | .bool b => by simp [Json.beq]
  | .num n => by simp [Json.beq]
  | .str s => by simp [Json.beq]
  | .arr xs => by simpa [Json.beq] using Json.beqList_refl xs
  | .obj xs => by simpa [Json.beq] using Json.beqFields_refl xs

/-- Reflexivity of `Json.beqList`. -/
def Json.beqList_refl : ∀ xs : List Json, Json.beqList xs xs = true
  | [] => rfl
  | x :: xs => by
      simp only [Json.beqList, Bool.and_eq_true]
      exact ⟨Json.beq_refl x, Json.beqList_refl xs⟩

/-- Reflexivity of `Json.beqFields`. -/
def Json.beqFields_refl : ∀ xs : List (String × Json), Json.beqFields xs xs = true
  | [] => rfl
  | (k, v) :: xs => by
      simp only [Json.beqFields, Bool.and_eq_true, beq_self_eq_true, true_and]
      exact ⟨Json.beq_refl v, Json.beqFields_refl xs⟩

end

instance : DecidableEq Json := fun a b =>
  if h : Json.beq a b = true then .isTrue (Json.eq_of_beq a b h)
  else .isFalse (fun he => h (he ▸ Json.beq_refl a))

/-- Python truthiness of a JSON-modelled value:
`None`/`False`/`0`/`""`/empty collections are falsy. -/
def Json.truthy : Json → Bool
  | .null => false
  | .bool b => b
  | .num n => n != 0
  | .str s => !s.isEmpty
  | .arr xs => !xs.isEmpty
  | .obj fs => !fs.isEmpty

/-- Truthiness of an optional Python value (`None` is falsy). -/
def pyTruthy : Option Json → Bool
  | none => false
  | some j => j.truthy

/-- Truthiness of an optional Python string (`None` and `""` are falsy). -/
def strTruthy : Option String → Bool
  | none => false
  | some s => !s.isEmpty

/-- Collapse a JSON document value to a Python-level optional value:
JSON `null` becomes Python `None`. -/
def pyVal : Json → Option Json
  | .null => none
  | j => some j

/-- Python exceptions that can escape the modelled operations. -/
inductive PyErr where
  | keyError (key : String)
  | typeError
  | attributeError
  | valueError
deriving DecidableEq, Repr

/-- `data[key]` on a Python value: `KeyError` when the key is missing from a
dict, `TypeError` when subscripting a non-dict value with a string key. -/
def Json.getItem : Json → String → Except PyErr Json
  | .obj fields, key =>
    match fields.lookup key with
    | some v => .ok v
    | none => .error (.keyError key)
  | _, _ => .error .typeError

/-- `data.get(key)` on a Python value: `None` when the key is missing (a
present JSON `null` is also Python `None`); `AttributeError` when the
receiver is not a dict. -/
def Json.getOpt : Json → String → Except PyErr (Option Json)
  | .obj fields, key =>
    .ok (match fields.lookup key with
         | some v => pyVal v
         | none => none)
  | _, _ => .error .attributeError

/-- `data.get(key, default)` on a Python value. -/
def Json.getD : Json → String → Json → Except PyErr Json
  | .obj fields, key, dflt => .ok ((fields.lookup key).getD dflt)
  | _, _, _ => .error .attributeError

/-- Python `len` over a JSON value (`TypeError` on scalars). -/
def pyLen : Json → Except PyErr Nat
  | .arr xs => .ok xs.length
  | .str s => .ok s.length
  | .obj fs => .ok fs.length
  | _ => .error .typeError

/-- The five socket event kinds tracked by the harness. -/
inductive EventKind where
  | created
  | finished
  | disclosed
  | closed
  | points
deriving DecidableEq, Repr

/-- The `EventTracker` dataclass: per event kind, the set of student ids that
received the event. In the source the ids are the Python values assigned from
`choose_seat` responses, so identities are modelled as `Json` values. -/
structure EventTracker where
  batch_quizzes_created : Finset Json
  batch_quizzes_finished : Finset Json
  batch_quizzes_disclosed : Finset Json
  batch_quizzes_closed : Finset Json
  student_points : Finset Json
deriving DecidableEq

/-- A freshly constructed `EventTracker()` (all five sets empty). -/
def EventTracker.empty : EventTracker := ⟨∅, ∅, ∅, ∅, ∅⟩

/-- `getattr(self, event_name)`: the per-kind set. -/
def EventTracker.eventSet (t : EventTracker) : EventKind → Finset Json
  | .created => t.batch_quizzes_created
  | .finished => t.batch_quizzes_finished
  | .disclosed => t.batch_quizzes_disclosed
  | .closed => t.batch_quizzes_closed
  | .points => t.student_points

/-- `self.event_tracker.<set>.add(student_id)`: idempotent add into the
per-kind set. -/
def EventTracker.record (t : EventTracker) (k : EventKind) (id : Json) : EventTracker :=
  match k with
  | .created => { t with batch_quizzes_created := insert id t.batch_quizzes_created }
  | .finished => { t with batch_quizzes_finished := insert id t.batch_quizzes_finished }
  | .disclosed => { t with batch_quizzes_disclosed := insert id t.batch_quizzes_disclosed }
  | .closed => { t with batch_quizzes_closed := insert id t.batch_quizzes_closed }
  | .points => { t with student_points := insert id t.student_points }

/-- Result of `EventTracker.assert_all_received`: the tracker state after the
call, the returned boolean, and on mismatch the two diff sets the method
surfaces for diagnostics (missing = expected minus recorded, unexpected =
recorded minus expected; source lines 89 and 92). -/
structure AssertOutcome where
  tracker : EventTracker
  passed : Bool
  missingUnexpected : Option (Finset Json × Finset Json)
deriving DecidableEq

/-- `EventTracker.assert_all_received(event_name, expected_student_ids,
total_students)` (source lines 52-101). The method reads the per-kind set,
compares the received count and the set itself against the expectation, and
on mismatch computes both diff sets. It performs no assignment to any field,
so the returned tracker is the receiver itself. `total_students` is used only
for logging. -/
def EventTracker.assert_all_received (t : EventTracker) (event_name : EventKind)
    (expected_student_ids : Finset Json) (total_students : Option Nat) : AssertOutcome :=
  let event_set := t.eventSet event_name
  let received := event_set.card
  let expected_count := expected_student_ids.card
  if received = expected_count ∧ event_set = expected_student_ids then
    ⟨t, true, none⟩
  else
    ⟨t, false, some (expected_student_ids \ event_set, event_set \ expected_student_ids)⟩

/-- The outbound `join_lesson` payload emitted on (re)connection
(source lines 427-436). -/
structure JoinMsg where
  lesson_id : Json
  user_id : Json
  role : String
  access_token : Json
deriving DecidableEq

/-- The per-student client state: the fields of the `Student` class plus the
transport-level view (`self.sio.connected` and the namespace sid returned by
`self.sio.get_sid(PARTICIPANT_NS)`). -/
structure Student where
  student_number : Nat
  device_id : String
  sioConnected : Bool
  nsSid : Option String
  sid : Option String
  student_id : Option Json
  socket_token : Option Json
  connected : Bool
  latest_batch_quizzes_id : Option Json
  quiz_data : Option Json
  lesson_id : Option Json
  disconnect_reason : Option String
deriving DecidableEq

/-- A freshly constructed `Student(i, ...)`; the random uuid device id is
modelled deterministically (its value is never compared). -/
def initStudent (i : Nat) : Student :=
  ⟨i, "device-" ++ toString i, false, none, none, none, none, false, none, none, none, none⟩

/-- `Student.on_connect` (source lines 400-450): sets `self.connected`, reads
the namespace-specific sid, refreshes `self.sid` when that sid is truthy, and
— only then, and only when `self.lesson_id and self.student_id and
self.socket_token` are all truthy — emits the `join_lesson` message built
from the stored identity and credential. When the namespace sid is `None` the
handler only logs a warning (lines 447-450) and emits nothing. The handler
performs no HTTP request and never reassigns identity or credential. -/
def Student.on_connect (s : Student) : Student × Option JoinMsg :=
  let s1 : Student := { s with connected := true }
  if strTruthy s1.nsSid then
    let s2 : Student := { s1 with sid := s1.nsSid }
    if pyTruthy s2.lesson_id && pyTruthy s2.student_id && pyTruthy s2.socket_token then
      (s2, some ⟨s2.lesson_id.getD Json.null, s2.student_id.getD Json.null, "student",
                 s2.socket_token.getD Json.null⟩)
    else (s2, none)
  else (s1, none)

/-- `Student.on_disconnect` (source lines 452-485): records the disconnect
reason (`str(reason) if reason else "Unknown"`) and clears the `connected`
flag; everything else is logging. It does not touch `student_id`,
`socket_token` or `lesson_id`. -/
def Student.on_disconnect (s : Student) (reason : Option String) : Student :=
  let reasonStr := match reason with
    | some r => if r.isEmpty then "Unknown" else r
    | none => "Unknown"
  { s with disconnect_reason := some reasonStr, connected := false }

/-- The acknowledgment dict returned by the event handlers. -/
def Student.ack (s : Student) : Json :=
  Json.obj [("status", Json.str "received"), ("student_id", s.student_id.getD Json.null)]

/-- `Student.on_batch_quizzes_created` (source lines 497-506): records the
receiving student's id when it is truthy, stores the new batch id from the
payload, and returns an acknowledgment. -/
def Student.on_batch_quizzes_created (s : Student) (t : EventTracker) (data : Json) :
    Student × EventTracker × Except PyErr Json :=
  let t1 := if pyTruthy s.student_id then t.record .created (s.student_id.getD Json.null) else t
  match data.getOpt "batch_quizzes_id" with
  | .error e => (s, t1, .error e)
  | .ok v => ({ s with latest_batch_quizzes_id := v }, t1, .ok s.ack)

/-- `Student.on_batch_quizzes_finished` (source lines 508-515). -/
def Student.on_batch_quizzes_finished (s : Student) (t : EventTracker) (_data : Json) :
    Student × EventTracker × Except PyErr Json :=
  let t1 := if pyTruthy s.student_id then t.record .finished (s.student_id.getD Json.null) else t
  (s, t1, .ok s.ack)

/-- `Student.on_batch_quizzes_disclosed` (source lines 517-524). -/
def Student.on_batch_quizzes_disclosed (s : Student) (t : EventTracker) (_data : Json) :
    Student × EventTracker × Except PyErr Json :=
  let t1 := if pyTruthy s.student_id then t.record .disclosed (s.student_id.getD Json.null) else t
  (s, t1, .ok s.ack)

/-- `Student.on_batch_quizzes_closed` (source lines 526-533). -/
def Student.on_batch_quizzes_closed (s : Student) (t : EventTracker) (_data : Json) :
    Student × EventTracker × Except PyErr Json :=
  let t1 := if pyTruthy s.student_id then t.record .closed (s.student_id.getD Json.null) else t
  (s, t1, .ok s.ack)

/-- `Student.on_student_points` (source lines 535-543): records the id, reads
`data.get("points", 0)`, and acknowledges with the points value. -/
def Student.on_student_points (s : Student) (t : EventTracker) (data : Json) :
    Student × EventTracker × Except PyErr Json :=
  let t1 := if pyTruthy s.student_id then t.record .points (s.student_id.getD Json.null) else t
  match data.getD "points" (Json.num 0) with
  | .error e => (s, t1, .error e)
  | .ok p => (s, t1, .ok (Json.obj [("status", Json.str "received"),
      ("student_id", s.student_id.getD Json.null), ("points", p)]))

/-- Dispatch of an inbound socket event to the handler registered for its
kind (the `self.sio.on(...)` registrations, source lines 376-396). -/
def Student.handle_event (s : Student) (t : EventTracker) (k : EventKind) (data : Json) :
    Student × EventTracker × Except PyErr Json :=
  match k with
  | .created => s.on_batch_quizzes_created t data
  | .finished => s.on_batch_quizzes_finished t data
  | .disclosed => s.on_batch_quizzes_disclosed t data
  | .closed => s.on_batch_quizzes_closed t data
  | .points => s.on_student_points t data

/-- What the transport produced for one HTTP call: a
`requests.exceptions.RequestException` (connection error, timeout, ...) or a
response with a status code and a body (`none` = a body `response.json()`
cannot decode; `JSONDecodeError` is a `RequestException` subclass and is
caught by the source's handlers). -/
inductive HttpOutcome where
  | requestError
  | response (status : Nat) (body : Option Json)
deriving DecidableEq

/-- `Teacher.create_lesson` (source lines 116-138): POST, `raise_for_status`,
then `data["data"]["lesson_id"]` is read with bare dict subscripts — only
`RequestException` is caught, so a `KeyError` from a 2xx body lacking the
fields escapes. Returns the stored lesson id, `none` as the failure
sentinel. -/
def Teacher.create_lesson (o : HttpOutcome) : Except PyErr (Option Json) :=
  match o with
  | .requestError => .ok none
  | .response status body =>
    if 400 ≤ status then .ok none
    else match body with
      | none => .ok none
      | some data =>
        match data.getItem "data" with
        | .error e => .error e
        | .ok d =>
          match d.getItem "lesson_id" with
          | .error e => .error e
          | .ok v => .ok (pyVal v)

/-- `Teacher.create_batch_quizzes` (source lines 140-264): the quiz fixture
payload is content, not protocol; the result is
`data["data"]["batch_quizzes_id"]` under the same exception policy as
`create_lesson`. -/
def Teacher.create_batch_quizzes (o : HttpOutcome) : Except PyErr (Option Json) :=
  match o with
  | .requestError => .ok none
  | .response status body =>
    if 400 ≤ status then .ok none
    else match body with
      | none => .ok none
      | some data =>
        match data.getItem "data" with
        | .error e => .error e
        | .ok d =>
          match d.getItem "batch_quizzes_id" with
          | .error e => .error e
          | .ok v => .ok (pyVal v)

/-- `Teacher.update_batch_quiz_status` (source lines 266-288): PUT with a
status payload; the body is never parsed, so the only failure paths are the
caught `RequestException`s and the result is always a boolean. -/
def Teacher.update_batch_quiz_status (statusArg : String) (o : HttpOutcome) :
    Except PyErr Bool :=
  match o with
  | .requestError => .ok false
  | .response status _ => if 400 ≤ status then .ok false else .ok true

/-- `Teacher.disclose_batch_quiz` (source lines 290-309). -/
def Teacher.disclose_batch_quiz (o : HttpOutcome) : Except PyErr Bool :=
  match o with
  | .requestError => .ok false
  | .response status _ => if 400 ≤ status then .ok false else .ok true

/-- `Teacher.add_student_points` (source lines 311-331); the student/points
payload is not protocol-relevant to the result. -/
def Teacher.add_student_points (studentsArg : List (Json × Nat)) (o : HttpOutcome) :
    Except PyErr Bool :=
  match o with
  | .requestError => .ok false
  | .response status _ => if 400 ≤ status then .ok false else .ok true

instance {ε α : Type} [DecidableEq ε] [DecidableEq α] : DecidableEq (Except ε α) := fun x y =>
  match x, y with
  | .ok a, .ok b =>
    if h : a = b then .isTrue (congrArg Except.ok h)
    else .isFalse (fun he => h (Except.ok.inj he))
  | .error a, .error b =>
    if h : a = b then .isTrue (congrArg Except.error h)
    else .isFalse (fun he => h (Except.error.inj he))
  | .ok _, .error _ => .isFalse (fun he => Except.noConfusion he)
  | .error _, .ok _ => .isFalse (fun he => Except.noConfusion he)

/-- Result of `Student.choose_seat`: the Python return value (or escaped
exception), the student state after the call, whether the HTTP request was
issued at all, and whether the post-claim settle re-validation logged the
"socket disconnected after choosing seat" warning. -/
structure SeatOutcome where
  returned : Except PyErr Bool
  student : Student
  requestSent : Bool
  settleWarning : Bool
deriving DecidableEq

/-- `Student.choose_seat` (source lines 590-653): reads the live namespace sid
(`None` unless `self.sio.connected`); fails fast returning `False` with no
request when that sid is falsy, re-checks `self.sio.connected`, then POSTs.
On a 2xx decodable body it assigns `student_id` (bare subscript — `KeyError`
escapes when missing), `socket_token` via `.get`, and stores the lesson id for
reconnection; after a settle delay a dropped transport is logged as a warning
while the method still returns `True`. `settleConnected` is the value of
`self.sio.connected` observed at that re-validation. -/
def Student.choose_seat (s : Student) (lessonIdArg : Json) (o : HttpOutcome)
    (settleConnected : Bool) : SeatOutcome :=
  let current_sid : Option String := if s.sioConnected then s.nsSid else none
  if !(strTruthy current_sid) then ⟨.ok false, s, false, false⟩
  else if !s.sioConnected then ⟨.ok false, s, false, false⟩
  else match o with
  | .requestError => ⟨.ok false, s, true, false⟩
  | .response status body =>
    if 400 ≤ status then ⟨.ok false, s, true, false⟩
    else match body with
      | none => ⟨.ok false, s, true, false⟩
      | some data =>
        match data.getItem "student_id" with
        | .error e => ⟨.error e, s, true, false⟩
        | .ok v =>
          match data.getOpt "socket_token" with
          | .error e => ⟨.error e, { s with student_id := pyVal v }, true, false⟩
          | .ok tok =>
            let s1 : Student :=
              { s with student_id := pyVal v, socket_token := tok,
                       lesson_id := some lessonIdArg }
            if settleConnected then ⟨.ok true, s1, true, false⟩
            else ⟨.ok true, s1, true, true⟩

/-- `Student.get_latest_batch_quiz` (source lines 655-675): requires a truthy
`student_id`, GETs without auth, stores the decoded body in `quiz_data` and
returns it; all `RequestException`s yield the `None` sentinel. -/
def Student.get_latest_batch_quiz (s : Student) (lessonIdArg : Json) (o : HttpOutcome) :
    Except PyErr (Option Json) × Student :=
  if !(pyTruthy s.student_id) then (.ok none, s)
  else match o with
  | .requestError => (.ok none, s)
  | .response status body =>
    if 400 ≤ status then (.ok none, s)
    else match body with
      | none => (.ok none, s)
      | some data => (.ok (pyVal data), { s with quiz_data := pyVal data })

/-- The random choices made while synthesizing answers
(`random.choice` / `random.randint` / `random.sample`), supplied as an
oracle; the chosen values are never inspected by the verified properties. -/
structure Rng where
  pick : Nat → Nat → Nat
  sample : Nat → Nat → List Nat

/-- `random.randint(lo, hi)` for `lo ≤ hi` (the caller guards the
`ValueError` case explicitly). -/
def Rng.randint (r : Rng) (lo hi : Nat) : Nat := lo + r.pick lo hi % (hi + 1 - lo)

/-- Answer synthesis for one quiz dict (the body of the `for quiz in quizzes`
loop, source lines 689-708): `.get` accesses raise `AttributeError` on a
non-dict element, `random.randint(1, 0)` raises `ValueError` for an empty
`SINGLE_SELECT` option list, and unknown quiz types yield an empty answer. -/
def synthOne (r : Rng) (quiz : Json) : Except PyErr (Option Json × List Nat) :=
  match quiz.getOpt "quiz_id" with
  | .error e => .error e
  | .ok quiz_id =>
    match quiz.getOpt "quiz_type" with
    | .error e => .error e
    | .ok quiz_type =>
      match quiz.getD "option_list" (Json.arr []) with
      | .error e => .error e
      | .ok option_list =>
        if quiz_type = some (Json.str "TRUE_FALSE") then
          .ok (quiz_id, [r.randint 1 2])
        else if quiz_type = some (Json.str "SINGLE_SELECT") then
          match pyLen option_list with
          | .error e => .error e
          | .ok n => if n = 0 then .error .valueError else .ok (quiz_id, [r.randint 1 n])
        else if quiz_type = some (Json.str "MULTIPLE_SELECT") then
          match pyLen option_list with
          | .error e => .error e
          | .ok n =>
            let num_selections := r.randint 0 (min 3 n)
            .ok (quiz_id, if 0 < num_selections then r.sample n num_selections else [])
        else .ok (quiz_id, [])

/-- The `for quiz in quizzes` loop collecting one answer per quiz. -/
def synthAnswers (r : Rng) : List Json → Except PyErr (List (Option Json × List Nat))
  | [] => .ok []
  | q :: rest =>
    match synthOne r q with
    | .error e => .error e
    | .ok a =>
      match synthAnswers r rest with
      | .error e => .error e
      | .ok tailAns => .ok (a :: tailAns)

/-- The answer-synthesis prefix of `Student.submit_answers` (source lines
686-708), which runs before the `try` block and can therefore raise:
`self.quiz_data.get("data", {}).get("quizzes", [])` raises `AttributeError`
on non-dict receivers, and iterating a non-list `quizzes` value either raises
or (for an empty string/dict) yields nothing. -/
def synthesize_answers (r : Rng) (quiz_data : Json) :
    Except PyErr (List (Option Json × List Nat)) :=
  match quiz_data.getD "data" (Json.obj []) with
  | .error e => .error e
  | .ok d =>
    match d.getD "quizzes" (Json.arr []) with
    | .error e => .error e
    | .ok qz =>
      match qz with
      | .arr quizzes => synthAnswers r quizzes
      | .str s => if s.isEmpty then .ok [] else .error .attributeError
      | .obj fs => if fs.isEmpty then .ok [] else .error .attributeError
      | _ => .error .typeError

/-- `Student.submit_answers` (source lines 677-722): sentinel `False` when
identity or quiz data is missing, then answer synthesis (outside the `try`,
so its exceptions escape), then the PUT whose `RequestException`s are caught
as `False`. -/
def Student.submit_answers (s : Student) (batchQuizzesIdArg : Json) (r : Rng)
    (o : HttpOutcome) : Except PyErr Bool :=
  if !(pyTruthy s.student_id) || !(pyTruthy s.quiz_data) then .ok false
  else
    match s.quiz_data with
    | none => .ok false
    | some qd =>
      match synthesize_answers r qd with
      | .error e => .error e
      | .ok _answers =>
        match o with
        | .requestError => .ok false
        | .response status _ => if 400 ≤ status then .ok false else .ok true

/-- One step of the chunked seat-selection loop
`for i in range(0, len(connected_students), batch_size)` with
`batch_size = 10` (source lines 805-823), with explicit fuel for structural
recursion: each entry is a batch (a slice of at most 10) paired with whether
the inter-batch delay `if i + batch_size < len(connected_students)` runs
after it. -/
def chunkGo {α : Type} : Nat → List α → List (List α × Bool)
  | 0, _ => []
  | fuel + 1, l =>
    if l.isEmpty then []
    else if 10 < l.length then (l.take 10, true) :: chunkGo fuel (l.drop 10)
    else [(l, false)]

/-- The batches (with their trailing-delay flags) produced by the chunked
claim-slot loop over a list of still-connected students. -/
def chunkLoop {α : Type} (l : List α) : List (List α × Bool) := chunkGo l.length l

/-- What one student's `connect_socket()` call did: either it failed/timed
out with no namespace connection, or the namespace connected (firing
`on_connect`) with the given namespace sid. -/
inductive ConnectOutcome where
  | failed
  | connected (nsSid : Option String)
deriving DecidableEq

/-- An externally driven asynchronous occurrence during one of the
orchestrator's waits: a transport drop (firing `on_disconnect`), a transport
reconnect (firing `on_connect` with the new namespace sid), or the delivery
of a server-pushed event to one client (firing its registered handler). -/
inductive Happening where
  | drop (idx : Nat) (reason : Option String)
  | reconnect (idx : Nat) (nsSid : Option String)
  | deliver (idx : Nat) (k : EventKind) (data : Json)
deriving DecidableEq

/-- A phase-level trace entry of the orchestrated run. `verify` records the
event kind, the expected-audience set passed to `assert_all_received`, its
boolean result, and (as ghost data for stating invariants) the full student
list at the moment of the call. -/
inductive Action where
  | createLesson (ok : Bool)
  | spawn (n : Nat)
  | connectDone (connectedCount : Nat)
  | claimBatch (size : Nat)
  | interBatchDelay
  | claimDone (seatedCount : Nat)
  | createBatch (ok : Bool)
  | verify (k : EventKind) (expected : Finset Json) (passed : Bool) (snapshot : List Student)
  | fetchSubmit (submitted : Nat)
  | setStatus (statusArg : String) (ok : Bool)
  | disclose (ok : Bool)
  | awardPoints (ok : Bool)
  | teardown
deriving DecidableEq

/-- The environment of one simulated run: what every external collaborator
(HTTP endpoints, socket transport, random source) does, indexed per student
where the call is per student, plus the asynchronous happenings delivered
during each successive wait point. -/
structure Env where
  lessonHttp : HttpOutcome
  num_students : Nat
  connectOutcome : Nat → ConnectOutcome
  seatHttp : Nat → HttpOutcome
  seatSettleConnected : Nat → Bool
  batchHttp : HttpOutcome
  fetchHttp : Nat → HttpOutcome
  submitHttp : Nat → HttpOutcome
  finishHttp : HttpOutcome
  discloseHttp : HttpOutcome
  closeHttp : HttpOutcome
  pointsHttp : HttpOutcome
  rng : Rng
  pointsPick : Nat → Nat
  happenings : Nat → List Happening
  waitBeforeCreateBatch : Bool

/-- The orchestrator's threaded state: the student list, the shared tracker,
the index of the next wait point, and the phase trace. -/
structure SimState where
  students : List Student
  tracker : EventTracker
  sleepSlot : Nat
  trace : List Action

/-- Append one phase action to the trace. -/
def SimState.emit (st : SimState) (a : Action) : SimState :=
  { st with trace := st.trace ++ [a] }

/-- Apply one asynchronous happening to the clients and tracker. -/
def applyHappening (students : List Student) (t : EventTracker) :
    Happening → List Student × EventTracker
  | .drop i reason =>
    match students[i]? with
    | none => (students, t)
    | some s =>
      let s1 : Student := { s with sioConnected := false, nsSid := none }
      (students.set i (s1.on_disconnect reason), t)
  | .reconnect i ns =>
    match students[i]? with
    | none => (students, t)
    | some s =>
      let s1 : Student := { s with sioConnected := true, nsSid := ns }
      (students.set i (s1.on_connect).1, t)
  | .deliver i k data =>
    match students[i]? with
    | none => (students, t)
    | some s =>
      let r := s.handle_event t k data
      (students.set i r.1, r.2.1)

/-- Apply a list of happenings in order. -/
def applyHappenings (students : List Student) (t : EventTracker) (hs : List Happening) :
    List Student × EventTracker :=
  hs.foldl (fun acc h => applyHappening acc.1 acc.2 h) (students, t)

/-- One `await asyncio.sleep(...)` of the orchestrator: the happenings
scheduled for this wait point run, and the wait-point index advances. -/
def SimState.sleep (st : SimState) (env : Env) : SimState :=
  let p := applyHappenings st.students st.tracker (env.happenings st.sleepSlot)
  { st with students := p.1, tracker := p.2, sleepSlot := st.sleepSlot + 1 }

/-- The expected audience recomputed at a verification point:
`{s.student_id for s in students if s.student_id}` (source lines 888, 924,
934, 944, 960) — the ids of students whose `student_id` is truthy. -/
def seatedIds (students : List Student) : Finset Json :=
  students.foldl
    (fun acc s => if pyTruthy s.student_id then insert (s.student_id.getD Json.null) acc else acc)
    ∅

/-- Modelled from the spec: "the set of ClientIdentity values for clients
[holding] a non-null ClientIdentity" — membership requires only that the
identity is not `None`, with no truthiness filter. Used to compare the
spec's wording against the source's `seatedIds`. -/
def specNonNullIds (students : List Student) : Finset Json :=
  students.foldl
    (fun acc s => match s.student_id with
      | some j => insert j acc
      | none => acc)
    ∅

/-- One wait-then-verify step: recompute the seated audience from the current
students and call `assert_all_received` on it, recording the call (with the
momentary student list) in the trace. -/
def doVerify (st : SimState) (k : EventKind) (total : Nat) : SimState :=
  let expected := seatedIds st.students
  let r := st.tracker.assert_all_received k expected (some total)
  { st with tracker := r.tracker,
            trace := st.trace ++ [Action.verify k expected r.passed st.students] }

/-- One student's `connect_socket()` (source lines 545-588): on a namespace
connection the `on_connect` handler fires; the call returns `True` only when
the wait loop then observes `self.connected` and a truthy namespace sid
(also refreshing `self.sid`), and `False` on failure or timeout. -/
def connectStudent (oc : ConnectOutcome) (s : Student) : Student × Bool :=
  match oc with
  | .failed => (s, false)
  | .connected ns =>
    let s1 := (({ s with sioConnected := true, nsSid := ns } : Student).on_connect).1
    if s1.connected && strTruthy s1.nsSid then ({ s1 with sid := s1.nsSid }, true)
    else (s1, false)

/-- The spawned students paired with their `connect_socket()` results
(source lines 779-784). -/
def connectResults (env : Env) : List (Student × Bool) :=
  (List.range env.num_students).map
    (fun i => connectStudent (env.connectOutcome i) (initStudent (i + 1)))

/-- `connected_count`: how many `connect_socket()` calls returned `True`
(source line 786). -/
def connectedCountOf (env : Env) : Nat :=
  (connectResults env).countP (fun p => p.2)

/-- One student's turn inside a seat-selection batch: it performs
`choose_seat`, its state is written back, and a `True` result is counted
(source lines 813-817). -/
def seatStudentStep (env : Env) (lid : Json) (ab : SimState × Nat) (i : Nat) :
    SimState × Nat :=
  match ab.1.students[i]? with
  | none => ab
  | some s =>
    let r := s.choose_seat lid (env.seatHttp i) (env.seatSettleConnected i)
    ({ ab.1 with students := ab.1.students.set i r.student },
     ab.2 + (match r.returned with | .ok true => 1 | _ => 0))

/-- One batch of the seat-selection loop (source lines 808-819). -/
def runSeatBatch (env : Env) (lid : Json) (acc : SimState × Nat) (idxs : List Nat) :
    SimState × Nat :=
  idxs.foldl (seatStudentStep env lid) acc

/-- One iteration of the chunked loop: run the batch, then the inter-batch
`await asyncio.sleep(1)` only when another batch follows (source lines
808-823). -/
def claimStep (env : Env) (lid : Json) (acc : SimState × Nat) (b : List Nat × Bool) :
    SimState × Nat :=
  let acc1 := runSeatBatch env lid (acc.1.emit (Action.claimBatch b.1.length), acc.2) b.1
  if b.2 then ((acc1.1.emit Action.interBatchDelay).sleep env, acc1.2) else acc1

/-- The chunked claim-slot phase (source lines 798-827): the still-connected
students are selected by their `connected` flag, processed in batches of 10,
with the inter-batch delay run only between batches. Returns the state and
`seated_count`. -/
def claimPhase (env : Env) (lid : Json) (st : SimState) : SimState × Nat :=
  let connectedIdx := (List.range st.students.length).filter
      (fun i => match st.students[i]? with | some s => s.connected | none => false)
  (chunkLoop connectedIdx).foldl (claimStep env lid) (st, 0)

/-- The quiz-fetch fan-out (source lines 897-902): every student with a
truthy `student_id` fetches the latest batch quiz, updating its own state. -/
def fetchPhase (env : Env) (lid : Json) (st : SimState) : SimState :=
  let students2 := (List.range st.students.length).foldl
    (fun ss i =>
      match ss[i]? with
      | none => ss
      | some s =>
        if pyTruthy s.student_id then ss.set i (s.get_latest_batch_quiz lid (env.fetchHttp i)).2
        else ss)
    st.students
  { st with students := students2 }

/-- The answer-submission fan-out (source lines 907-915): every student with
truthy `quiz_data` submits; `True` results are counted (exceptions captured
by `gather(..., return_exceptions=True)` count as failures). -/
def submitPhase (env : Env) (batchId : Json) (st : SimState) : SimState × Nat :=
  let cnt := (List.range st.students.length).foldl
    (fun c i =>
      match st.students[i]? with
      | none => c
      | some s =>
        if pyTruthy s.quiz_data then
          match s.submit_answers batchId env.rng (env.submitHttp i) with
          | .ok true => c + 1
          | _ => c
        else c)
    0
  (st, cnt)

/-- The aggregate result of a run: its phase trace, the final clients and
tracker, and the exception that escaped `run_simulation`, if any. -/
structure RunResult where
  trace : List Action
  students : List Student
  tracker : EventTracker
  crashed : Option PyErr
deriving DecidableEq

/-- Step 10 (source lines 966-968): disconnect all clients (firing their
`on_disconnect` handlers), ignoring per-client failures. -/
def teardownPhase (st : SimState) : RunResult :=
  let students2 := st.students.map
    (fun s =>
      if s.sioConnected then
        (({ s with sioConnected := false, nsSid := none } : Student).on_disconnect none)
      else s)
  ⟨(st.emit Action.teardown).trace, students2, st.tracker, none⟩

/-- Step 9 (source lines 950-963): award points to every seated student, wait,
verify the `student_points` fan-out, then teardown. -/
def pointsPhase (env : Env) (st : SimState) : RunResult :=
  let student_points := (st.students.filter (fun s => pyTruthy s.student_id)).map
      (fun s => (s.student_id.getD Json.null, env.pointsPick s.student_number))
  match Teacher.add_student_points student_points env.pointsHttp with
  | .error e => ⟨st.trace, st.students, st.tracker, some e⟩
  | .ok ok =>
    teardownPhase
      (doVerify (((st.emit (Action.awardPoints ok))).sleep env) .points env.num_students)

/-- Step 8 (source lines 940-947): close the quiz, wait, verify. -/
def closePhase (env : Env) (st : SimState) : RunResult :=
  match Teacher.update_batch_quiz_status "CLOSE" env.closeHttp with
  | .error e => ⟨st.trace, st.students, st.tracker, some e⟩
  | .ok ok =>
    pointsPhase env
      (doVerify ((st.emit (Action.setStatus "CLOSE" ok)).sleep env) .closed env.num_students)

/-- Step 7 (source lines 930-937): disclose the quiz, wait, verify. -/
def disclosePhase (env : Env) (st : SimState) : RunResult :=
  match Teacher.disclose_batch_quiz env.discloseHttp with
  | .error e => ⟨st.trace, st.students, st.tracker, some e⟩
  | .ok ok =>
    closePhase env
      (doVerify ((st.emit (Action.disclose ok)).sleep env) .disclosed env.num_students)

/-- Step 6 (source lines 920-927): finish the quiz, wait, verify. -/
def finishPhase (env : Env) (st : SimState) : RunResult :=
  match Teacher.update_batch_quiz_status "FINISH" env.finishHttp with
  | .error e => ⟨st.trace, st.students, st.tracker, some e⟩
  | .ok ok =>
    disclosePhase env
      (doVerify ((st.emit (Action.setStatus "FINISH" ok)).sleep env) .finished env.num_students)

/-- Step 5 (source lines 894-917): fetch, wait, submit, wait, then the
status phases. -/
def quizPhase (env : Env) (lid : Json) (batchId : Json) (st : SimState) : RunResult :=
  let st1 := (fetchPhase env lid st).sleep env
  let p := submitPhase env batchId st1
  finishPhase env ((p.1.emit (Action.fetchSubmit p.2)).sleep env)

/-- Step 4 (source lines 877-891): create the batch quizzes; on the null
sentinel the source logs "Failed to create batch quizzes. Aborting." and
returns from `run_simulation`, so no later phase runs. On success: wait,
verify the `batch_quizzes_created` fan-out, then step 5. -/
def batchPhase (env : Env) (lid : Json) (st : SimState) : RunResult :=
  match Teacher.create_batch_quizzes env.batchHttp with
  | .error e => ⟨st.trace, st.students, st.tracker, some e⟩
  | .ok batchOpt =>
    let st1 := st.emit (Action.createBatch (pyTruthy batchOpt))
    if pyTruthy batchOpt then
      quizPhase env lid (batchOpt.getD Json.null)
        (doVerify (st1.sleep env) .created env.num_students)
    else ⟨st1.trace, st1.students, st1.tracker, none⟩

/-- Step 3 (source lines 795-875): the chunked claim-slot phase followed by
the settle waits and the configurable pre-batch delay, then step 4. -/
def seatPhase (env : Env) (lid : Json) (st : SimState) : RunResult :=
  let p := claimPhase env lid st
  let st1 := ((p.1.emit (Action.claimDone p.2)).sleep env).sleep env
  let st2 := if env.waitBeforeCreateBatch then st1.sleep env else st1
  batchPhase env lid st2

/-- Step 2 (source lines 776-793): spawn the students, fan out
`connect_socket()`, count successes; abort the run when zero connected,
otherwise wait and proceed to the claim phase. -/
def connectPhase (env : Env) (lid : Json) (st : SimState) : RunResult :=
  let results := connectResults env
  let st1 : SimState := { st with students := results.map Prod.fst }
  let st2 := (st1.emit (Action.spawn env.num_students)).emit
      (Action.connectDone (connectedCountOf env))
  if connectedCountOf env = 0 then ⟨st2.trace, st2.students, st2.tracker, none⟩
  else seatPhase env lid (st2.sleep env)

/-- `run_simulation` (source lines 730-995): step 1 creates the lesson and
aborts the whole run on the null sentinel (before any student is spawned);
otherwise the phases run in order. An exception escaping a teacher call
crashes the run (nothing in `run_simulation` catches it). -/
def run_simulation (env : Env) : RunResult :=
  let st0 : SimState := ⟨[], EventTracker.empty, 0, []⟩
  match Teacher.create_lesson env.lessonHttp with
  | .error e => ⟨st0.trace, st0.students, st0.tracker, some e⟩
  | .ok lessonOpt =>
    let st1 := st0.emit (Action.createLesson (pyTruthy lessonOpt))
    if pyTruthy lessonOpt then
      connectPhase env (lessonOpt.getD Json.null) (st1.sleep env)
    else ⟨st1.trace, st1.students, st1.tracker, none⟩

/-- Checker for the source's verification-point invariant: every `verify`
entry's expected set is the seated audience of the momentary student list. -/
def actionVerifySeated : Action → Bool
  | .verify _ expected _ snapshot => decide (expected = seatedIds snapshot)
  | _ => true

/-- Checker for the spec's wording of the invariant: every `verify` entry's
expected set is the set of non-null identities of the momentary student
list. -/
def actionVerifyNonNull : Action → Bool
  | .verify _ expected _ snapshot => decide (expected = specNonNullIds snapshot)
  | _ => true

/-- Trace entries that can only occur after the batch-quiz creation of
step 4 succeeded. -/
def isPostBatchAction : Action → Bool
  | .verify _ _ _ _ => true
  | .fetchSubmit _ => true
  | .setStatus _ _ => true
  | .disclose _ => true
  | .awardPoints _ => true
  | .teardown => true
  | _ => false

/-- The call outcomes caught by the source's `except
requests.exceptions.RequestException` handlers: transport-level failures and
HTTP error statuses (which `raise_for_status` turns into `HTTPError`). -/
def isFailure : HttpOutcome → Bool
  | .requestError => true
  | .response status _ => decide (400 ≤ status)

/-- A well-formed create-lesson response body. -/
def lessonBodyOK : Json := Json.obj [("data", Json.obj [("lesson_id", Json.str "L1")])]

/-- A well-formed create-batch-quizzes response body. -/
def batchBodyOK : Json := Json.obj [("data", Json.obj [("batch_quizzes_id", Json.str "B1")])]

/-- A `choose_seat` response whose server-assigned student id is the empty
string (a non-null identity that Python truthiness treats as falsy). -/
def seatBodyEmptyId : Json :=
  Json.obj [("student_id", Json.str ""), ("socket_token", Json.str "tok")]

/-- A `choose_seat` response assigning the identity "S1". -/
def seatBodyS1 : Json :=
  Json.obj [("student_id", Json.str "S1"), ("socket_token", Json.str "tok")]

/-- A fixed random source. -/
def rng0 : Rng := ⟨fun _ _ => 0, fun _ _ => []⟩

/-- An empty 200 response (body undecodable as JSON). -/
def okNone : HttpOutcome := HttpOutcome.response 200 none

/-- A run in which the single student's slot claim succeeds but the server
assigns the empty string as its identity: its `student_id` is then non-null
yet excluded from every recomputed expected audience. -/
def envCE : Env :=
  ⟨HttpOutcome.response 200 (some lessonBodyOK), 1,
   fun _ => ConnectOutcome.connected (some "sid1"),
   fun _ => HttpOutcome.response 200 (some seatBodyEmptyId),
   fun _ => true,
   HttpOutcome.response 200 (some batchBodyOK),
   fun _ => okNone,
   fun _ => okNone,
   okNone, okNone, okNone, okNone,
   rng0, fun _ => 10, fun _ => [], false⟩

/-- A run in which everything succeeds up to batch-quiz creation, which then
fails with a transport error (so `create_batch_quizzes` returns the null
sentinel). -/
def envC3 : Env :=
  ⟨HttpOutcome.response 200 (some lessonBodyOK), 1,
   fun _ => ConnectOutcome.connected (some "sid1"),
   fun _ => HttpOutcome.response 200 (some seatBodyS1),
   fun _ => true,
   HttpOutcome.requestError,
   fun _ => okNone,
   fun _ => okNone,
   okNone, okNone, okNone, okNone,
   rng0, fun _ => 10, fun _ => [], false⟩

/-- A run in which instructor session creation fails with a transport error
(`create_lesson` returns the null sentinel). -/
def envC8a : Env :=
  ⟨HttpOutcome.requestError, 3,
   fun _ => ConnectOutcome.connected (some "sid1"),
   fun _ => HttpOutcome.response 200 (some seatBodyS1),
   fun _ => true,
   HttpOutcome.response 200 (some batchBodyOK),
   fun _ => okNone,
   fun _ => okNone,
   okNone, okNone, okNone, okNone,
   rng0, fun _ => 10, fun _ => [], false⟩

/-- A run in which the lesson is created but both spawned students fail to
connect. -/
def envC8b : Env :=
  ⟨HttpOutcome.response 200 (some lessonBodyOK), 2,
   fun _ => ConnectOutcome.failed,
   fun _ => HttpOutcome.response 200 (some seatBodyS1),
   fun _ => true,
   HttpOutcome.response 200 (some batchBodyOK),
   fun _ => okNone,
   fun _ => okNone,
   okNone, okNone, okNone, okNone,
   rng0, fun _ => 10, fun _ => [], false⟩

/-- A tracker with recorded `batch_quizzes_created` set `A, B, D`. -/
def trackerEx : EventTracker :=
  ⟨{Json.str "A", Json.str "B", Json.str "D"}, ∅, ∅, ∅, ∅⟩

/-- The expected audience `A, B, C` of the spec's worked example. -/
def expectedEx : Finset Json := {Json.str "A", Json.str "B", Json.str "C"}

/-- A student that has claimed a slot (identity, credential and lesson id all
held) on a live transport. -/
def sClaimed : Student :=
  ⟨3, "device-3", true, some "sid3", some "sid3", some (Json.str "S3"),
   some (Json.str "tok3"), true, none, none, some (Json.str "L1"), none⟩

/-- A student that claimed a slot, lost its transport, and is now observing a
reconnect on which `self.sio.get_sid(PARTICIPANT_NS)` returns `None`. -/
def sReconnectCE : Student :=
  ⟨7, "device-7", true, none, some "oldsid", some (Json.str "S7"),
   some (Json.str "tok7"), false, none, none, some (Json.str "L1"),
   some "transport closed"⟩

/-- A student that has not completed slot-claim (identity still `None`). -/
def sNoId : Student := initStudent 1

/-- A student holding identity "A". -/
def sWithA : Student := { initStudent 2 with student_id := some (Json.str "A") }

/-! ## Helper lemmas -/

theorem pyTruthy_eq_true_iff (o : Option Json) :
    pyTruthy o = true ↔ ∃ j, o = some j ∧ j.truthy = true := by
  cases o <;> simp [pyTruthy]

theorem mem_record_eventSet (t : EventTracker) (k k2 : EventKind) (j id : Json) :
    id ∈ (t.record k j).eventSet k2 ↔ (k2 = k ∧ id = j) ∨ id ∈ t.eventSet k2 := by
  cases k <;> cases k2 <;>
    simp [EventTracker.record, EventTracker.eventSet, Finset.mem_insert]

theorem handle_event_tracker_eq (s : Student) (t : EventTracker) (k : EventKind) (data : Json) :
    (s.handle_event t k data).2.1
      = (if pyTruthy s.student_id then t.record k (s.student_id.getD Json.null) else t) := by
  cases k <;>
    simp only [Student.handle_event, Student.on_batch_quizzes_created,
      Student.on_batch_quizzes_finished, Student.on_batch_quizzes_disclosed,
      Student.on_batch_quizzes_closed, Student.on_student_points] <;>
    (try split) <;> rfl

/-! ## C1 -/

/-- C1: `assert_all_received` returns `true` iff the recorded set for the
event kind is exactly the expected set (a strict subset or superset yields
`false`), and whenever it returns `false` it surfaces both diffs: the missing
identities (expected minus recorded) and the unexpected identities (recorded
minus expected). -/
theorem assert_all_received_exact_and_diffs (t : EventTracker) (k : EventKind)
    (expected : Finset Json) (tot : Option Nat) :
    ((t.assert_all_received k expected tot).passed = true ↔ t.eventSet k = expected)
    ∧ ((t.assert_all_received k expected tot).passed = false →
        (t.assert_all_received k expected tot).missingUnexpected
          = some (expected \ t.eventSet k, t.eventSet k \ expected)) := by
  unfold EventTracker.assert_all_received
  by_cases h : t.eventSet k = expected
  · simp [h]
  · simp [h]

/-- Witness for C1, the spec's worked example: recorded `A, B, D` against
expected `A, B, C` fails verification with missing `C` and unexpected `D`. -/
theorem assert_all_received_exact_and_diffs_witness :
    (trackerEx.assert_all_received .created expectedEx none).passed = false
    ∧ (trackerEx.assert_all_received .created expectedEx none).missingUnexpected
        = some ({Json.str "C"}, {Json.str "D"}) := by
  have hfalse : (trackerEx.assert_all_received .created expectedEx none).passed = false := by
    decide
  have h := (assert_all_received_exact_and_diffs trackerEx .created expectedEx none).2 hfalse
  refine ⟨hfalse, ?_⟩
  rw [h]
  decide

/-! ## C10 -/

/-- C10: verification is read-only — `assert_all_received` returns the
tracker unchanged, so repeating the same verification gives the same result
and later verification points observe the history accumulated by the event
handlers alone. -/
theorem assert_all_received_readonly (t : EventTracker) (k : EventKind)
    (expected : Finset Json) (tot : Option Nat) :
    (t.assert_all_received k expected tot).tracker = t
    ∧ ((t.assert_all_received k expected tot).tracker.assert_all_received k expected tot
        = t.assert_all_received k expected tot) := by
  have htr : (t.assert_all_received k expected tot).tracker = t := by
    by_cases h : t.eventSet k = expected <;> simp [EventTracker.assert_all_received, h]
  exact ⟨htr, by rw [htr]⟩

/-! ## C9 -/

/-- C9: an identity is added to a tracker set by an inbound-event handler only
when the receiving client's `student_id` is truthy (in particular non-null):
a handler run on a client with no identity leaves the tracker unchanged, and
any identity present after a handler ran was either already recorded or is
the receiving client's own (non-null, truthy) identity recorded under the
delivered event's kind. -/
theorem handlers_record_only_claimed_ids (s : Student) (t : EventTracker)
    (k : EventKind) (data : Json) :
    (pyTruthy s.student_id = false → (s.handle_event t k data).2.1 = t)
    ∧ (∀ k2 id, id ∈ ((s.handle_event t k data).2.1).eventSet k2 →
        id ∈ t.eventSet k2 ∨ (k2 = k ∧ s.student_id = some id ∧ id.truthy = true)) := by
  constructor
  · intro h
    rw [handle_event_tracker_eq, h]
    simp
  · intro k2 id hmem
    rw [handle_event_tracker_eq] at hmem
    by_cases h : pyTruthy s.student_id = true
    · rw [if_pos h] at hmem
      obtain ⟨j, hj, hjt⟩ := (pyTruthy_eq_true_iff s.student_id).mp h
      rw [mem_record_eventSet] at hmem
      rcases hmem with ⟨hk, hid⟩ | hmem
      · right
        refine ⟨hk, ?_, ?_⟩
        · rw [hj, hid, hj]
          simp
        · rw [hid, hj]
          simpa using hjt
      · exact Or.inl hmem
    · rw [if_neg h] at hmem
      exact Or.inl hmem

/-- Witness for C9: a handler run on an identity-less client records nothing,
and the identity recorded for a claimed client is its own truthy identity. -/
theorem handlers_record_only_claimed_ids_witness :
    (sNoId.handle_event EventTracker.empty .created (Json.obj [])).2.1 = EventTracker.empty
    ∧ ((Json.str "A") ∈ EventTracker.empty.eventSet .created
        ∨ (EventKind.created = EventKind.created
            ∧ sWithA.student_id = some (Json.str "A") ∧ (Json.str "A").truthy = true)) := by
  have h1 := handlers_record_only_claimed_ids sNoId EventTracker.empty .created (Json.obj [])
  have h2 := handlers_record_only_claimed_ids sWithA EventTracker.empty .created (Json.obj [])
  exact ⟨h1.1 (by decide), h2.2 .created (Json.str "A") (by decide)⟩

/-! ## C4 -/

/-- C4 counterexample: a client that completed slot-claim (identity,
credential and stored lesson id all held and truthy) observes a transition
into Connected on which the transport reports no namespace sid
(`self.sio.get_sid(PARTICIPANT_NS)` is `None`, the warning branch of source
lines 447-450): the handler sets `connected` but emits no `join_lesson`
message, so the claim that every transition into Connected re-emits the join
is false at this input. -/
theorem on_connect_without_nssid_emits_nothing :
    pyTruthy sReconnectCE.student_id = true
    ∧ pyTruthy sReconnectCE.socket_token = true
    ∧ pyTruthy sReconnectCE.lesson_id = true
    ∧ (sReconnectCE.on_connect).1.connected = true
    ∧ (sReconnectCE.on_connect).2 = none := by
  decide

/-- C4 (amended): for a client that successfully claimed a slot (truthy
identity, credential and stored lesson id), a transition into Disconnected
preserves those three fields, and a subsequent transition into Connected in
which the transport reports a nonempty namespace sid automatically emits a
`join_lesson` message carrying the original identity and credential, without
reassigning either field (and, per `Student.on_connect`, without issuing any
slot-claim request — the handler performs no HTTP call at all). -/
theorem reconnect_resume (s : Student) (reason : Option String) (nsid : String)
    (hid : pyTruthy s.student_id = true) (htok : pyTruthy s.socket_token = true)
    (hlid : pyTruthy s.lesson_id = true) (hns : nsid.isEmpty = false) :
    ((s.on_disconnect reason).student_id = s.student_id
      ∧ (s.on_disconnect reason).socket_token = s.socket_token
      ∧ (s.on_disconnect reason).lesson_id = s.lesson_id)
    ∧ ((({ s.on_disconnect reason with sioConnected := true, nsSid := some nsid } : Student).on_connect).2
        = some ⟨s.lesson_id.getD Json.null, s.student_id.getD Json.null, "student",
                s.socket_token.getD Json.null⟩
      ∧ (({ s.on_disconnect reason with sioConnected := true, nsSid := some nsid } : Student).on_connect).1.student_id
          = s.student_id
      ∧ (({ s.on_disconnect reason with sioConnected := true, nsSid := some nsid } : Student).on_connect).1.socket_token
          = s.socket_token) := by
  constructor
  · simp [Student.on_disconnect]
  · simp [Student.on_disconnect, Student.on_connect, strTruthy, hns, hid, htok, hlid]

/-- Witness for C4 (amended): the claimed student `sClaimed` drops and
reconnects with a fresh namespace sid, re-emitting its original identity and
credential. -/
theorem reconnect_resume_witness :
    (sClaimed.on_disconnect (some "drop")).student_id = sClaimed.student_id
    ∧ (({ sClaimed.on_disconnect (some "drop") with sioConnected := true, nsSid := some "newsid" } : Student).on_connect).2
        = some ⟨Json.str "L1", Json.str "S3", "student", Json.str "tok3"⟩ := by
  have h := reconnect_resume sClaimed (some "drop") "newsid"
    (by decide) (by decide) (by decide) (by decide)
  refine ⟨h.1.1, ?_⟩
  rw [h.2.1]
  rfl

/-! ## C5 -/

/-- C5 counterexample: a successful (200) response whose body lacks the
expected "data" field makes `create_lesson` raise an uncaught `KeyError`
past its boundary instead of returning the null sentinel — only
`RequestException` is caught by the source's handler. -/
theorem create_lesson_raises_on_missing_field :
    Teacher.create_lesson (HttpOutcome.response 200 (some (Json.obj [])))
      = Except.error (PyErr.keyError "data") := rfl

/-- C5 (amended): every Teacher and Student network operation catches the
`RequestException` class — transport failures and HTTP error statuses (and,
for the body-parsing operations, undecodable JSON bodies) — logging and
returning its null/false sentinel; but a successful response whose body
lacks the expected fields is outside the guard for `create_lesson`,
`create_batch_quizzes` and `choose_seat`, and `submit_answers` may raise
during answer synthesis over a malformed stored quiz body (hence the
synthesis-success hypothesis on its conjunct). -/
theorem ops_sentinel_on_caught_failures :
    (∀ o : HttpOutcome, isFailure o = true →
      Teacher.create_lesson o = .ok none
      ∧ Teacher.create_batch_quizzes o = .ok none
      ∧ (∀ stArg, Teacher.update_batch_quiz_status stArg o = .ok false)
      ∧ Teacher.disclose_batch_quiz o = .ok false
      ∧ (∀ sp, Teacher.add_student_points sp o = .ok false)
      ∧ (∀ s lid sc, (Student.choose_seat s lid o sc).returned = .ok false)
      ∧ (∀ s lid, (Student.get_latest_batch_quiz s lid o).1 = .ok none)
      ∧ (∀ s bid r, (∀ qd, s.quiz_data = some qd → ∃ a, synthesize_answers r qd = Except.ok a) →
          Student.submit_answers s bid r o = .ok false))
    ∧ (∀ status : Nat, status < 400 →
        Teacher.create_lesson (.response status none) = .ok none
        ∧ Teacher.create_batch_quizzes (.response status none) = .ok none
        ∧ (∀ s lid sc, (Student.choose_seat s lid (.response status none) sc).returned = .ok false)
        ∧ (∀ s lid, (Student.get_latest_batch_quiz s lid (.response status none)).1 = .ok none)) := by
  constructor
  · intro o ho
    have hsubmit : ∀ s bid r,
        (∀ qd, s.quiz_data = some qd → ∃ a, synthesize_answers r qd = Except.ok a) →
        Student.submit_answers s bid r o = .ok false := by
      intro s bid r hsyn
      unfold Student.submit_answers
      by_cases hg : (!(pyTruthy s.student_id) || !(pyTruthy s.quiz_data)) = true
      · rw [if_pos hg]
      · rw [if_neg hg]
        cases hqd : s.quiz_data with
        | none => rfl
        | some qd =>
          obtain ⟨a, ha⟩ := hsyn qd hqd
          cases o with
          | requestError => simp [ha]
          | response status body =>
            have h4 : 400 ≤ status := by simpa [isFailure] using ho
            simp [ha, h4]
    have hseat : ∀ s lid sc, (Student.choose_seat s lid o sc).returned = .ok false := by
      intro s lid sc
      unfold Student.choose_seat
      by_cases h1 : (!(strTruthy (if s.sioConnected then s.nsSid else none))) = true
      · rw [if_pos h1]
      · rw [if_neg h1]
        by_cases h2 : (!s.sioConnected) = true
        · rw [if_pos h2]
        · rw [if_neg h2]
          cases o with
          | requestError => rfl
          | response status body =>
            have h4 : 400 ≤ status := by simpa [isFailure] using ho
            simp [h4]
    cases o with
    | requestError =>
      refine ⟨rfl, rfl, fun _ => rfl, rfl, fun _ => rfl, hseat, ?_, hsubmit⟩
      intro s lid
      unfold Student.get_latest_batch_quiz
      by_cases h : (!(pyTruthy s.student_id)) = true
      · rw [if_pos h]
      · rw [if_neg h]
    | response status body =>
      have h4 : 400 ≤ status := by simpa [isFailure] using ho
      refine ⟨?_, ?_, fun _ => ?_, ?_, fun _ => ?_, hseat, ?_, hsubmit⟩
      · simp [Teacher.create_lesson, h4]
      · simp [Teacher.create_batch_quizzes, h4]
      · simp [Teacher.update_batch_quiz_status, h4]
      · simp [Teacher.disclose_batch_quiz, h4]
      · simp [Teacher.add_student_points, h4]
      · intro s lid
        unfold Student.get_latest_batch_quiz
        by_cases h : (!(pyTruthy s.student_id)) = true
        · rw [if_pos h]
        · rw [if_neg h]
          simp [h4]
  · intro status hlt
    have h4 : ¬(400 ≤ status) := by omega
    refine ⟨?_, ?_, ?_, ?_⟩
    · simp [Teacher.create_lesson, h4]
    · simp [Teacher.create_batch_quizzes, h4]
    · intro s lid sc
      unfold Student.choose_seat
      by_cases h1 : (!(strTruthy (if s.sioConnected then s.nsSid else none))) = true
      · rw [if_pos h1]
      · rw [if_neg h1]
        by_cases h2 : (!s.sioConnected) = true
        · rw [if_pos h2]
        · rw [if_neg h2]
          simp [h4]
    · intro s lid
      unfold Student.get_latest_batch_quiz
      by_cases h : (!(pyTruthy s.student_id)) = true
      · rw [if_pos h]
      · rw [if_neg h]
        simp [h4]

/-- Witness for C5 (amended): a transport error makes `create_lesson` return
its null sentinel and a claimed student's `choose_seat` return `False`, and a
500 response makes `submit_answers` return `False` for a student whose
stored quiz body synthesizes cleanly. -/
theorem ops_sentinel_on_caught_failures_witness :
    Teacher.create_lesson HttpOutcome.requestError = Except.ok none
    ∧ (Student.choose_seat sClaimed (Json.str "L1") HttpOutcome.requestError true).returned
        = Except.ok false
    ∧ Student.submit_answers
        ({ sClaimed with quiz_data := some (Json.obj [("x", Json.str "y")]) } : Student)
        (Json.str "B1") rng0 (HttpOutcome.response 500 none) = Except.ok false := by
  have h := ops_sentinel_on_caught_failures
  refine ⟨(h.1 HttpOutcome.requestError rfl).1,
          (h.1 HttpOutcome.requestError rfl).2.2.2.2.2.1 sClaimed (Json.str "L1") true,
          (h.1 (HttpOutcome.response 500 none) (by decide)).2.2.2.2.2.2.2
            ({ sClaimed with quiz_data := some (Json.obj [("x", Json.str "y")]) } : Student)
            (Json.str "B1") rng0 ?_⟩
  intro qd hqd
  have hq : some (Json.obj [("x", Json.str "y")]) = some qd := hqd
  obtain rfl : Json.obj [("x", Json.str "y")] = qd := Option.some.inj hq
  exact ⟨[], rfl⟩

/-! ## C6 -/

/-- C6: `choose_seat` fails fast — with no truthy namespace sid on a
connected transport it returns `False` without sending any HTTP request —
and when the claim request itself succeeds (2xx with a well-formed body) but
the transport is observed down at the post-claim settle re-validation, only
a warning is recorded while the call still returns `True`. -/
theorem choose_seat_fail_fast_and_settle_warning (s : Student) (lid : Json)
    (o : HttpOutcome) (sc : Bool) :
    (strTruthy (if s.sioConnected then s.nsSid else none) = false →
      Student.choose_seat s lid o sc = ⟨.ok false, s, false, false⟩)
    ∧ (∀ status body v tok,
        strTruthy (if s.sioConnected then s.nsSid else none) = true →
        o = .response status (some body) → status < 400 →
        body.getItem "student_id" = .ok v →
        body.getOpt "socket_token" = .ok tok →
        sc = false →
        (Student.choose_seat s lid o sc).returned = .ok true
        ∧ (Student.choose_seat s lid o sc).requestSent = true
        ∧ (Student.choose_seat s lid o sc).settleWarning = true) := by
  constructor
  · intro h
    unfold Student.choose_seat
    rw [if_pos (by simp [h])]
  · intro status body v tok hsid ho hlt hgi hgo hsc
    have hconn : s.sioConnected = true := by
      by_contra hc
      rw [if_neg (by simpa using hc)] at hsid
      simp [strTruthy] at hsid
    have h4 : ¬(400 ≤ status) := by omega
    subst ho hsc
    unfold Student.choose_seat
    rw [if_neg (by simp [hsid]), if_neg (by simp [hconn])]
    simp only [h4, if_false, hgi, hgo]
    exact ⟨rfl, rfl, rfl⟩

/-- Witness for C6: a never-connected student's `choose_seat` returns `False`
with no request sent, and a claimed student whose transport drops right after
a successful claim still gets `True` with the settle warning recorded. -/
theorem choose_seat_fail_fast_and_settle_warning_witness :
    Student.choose_seat sNoId (Json.str "L1") HttpOutcome.requestError true
      = ⟨.ok false, sNoId, false, false⟩
    ∧ (Student.choose_seat sClaimed (Json.str "L1")
        (HttpOutcome.response 200 (some seatBodyS1)) false).returned = .ok true
    ∧ (Student.choose_seat sClaimed (Json.str "L1")
        (HttpOutcome.response 200 (some seatBodyS1)) false).settleWarning = true := by
  have h1 := (choose_seat_fail_fast_and_settle_warning sNoId (Json.str "L1")
      HttpOutcome.requestError true).1 (by decide)
  have h2 := (choose_seat_fail_fast_and_settle_warning sClaimed (Json.str "L1")
      (HttpOutcome.response 200 (some seatBodyS1)) false).2 200 seatBodyS1
      (Json.str "S1") (some (Json.str "tok")) (by decide) rfl (by omega) (by decide)
      (by decide) rfl
  exact ⟨h1, h2.1, h2.2.2⟩

/-! ## C7 -/

theorem chunkGo_ne_nil {α : Type} :
    ∀ (fuel : Nat) (l : List α), l ≠ [] → l.length ≤ fuel → chunkGo fuel l ≠ [] := by
  intro fuel l hne hle
  cases fuel with
  | zero =>
    have : l = [] := List.length_eq_zero.mp (Nat.le_zero.mp hle)
    exact absurd this hne
  | succ fuel =>
    unfold chunkGo
    rw [if_neg (by simpa [List.isEmpty_iff] using hne)]
    by_cases h10 : 10 < l.length
    · rw [if_pos h10]
      simp
    · rw [if_neg h10]
      simp

theorem chunkGo_join {α : Type} :
    ∀ (fuel : Nat) (l : List α), l.length ≤ fuel →
      ((chunkGo fuel l).map Prod.fst).flatten = l := by
  intro fuel
  induction fuel with
  | zero =>
    intro l hle
    have : l = [] := List.length_eq_zero.mp (Nat.le_zero.mp hle)
    subst this
    rfl
  | succ fuel ih =>
    intro l hle
    unfold chunkGo
    by_cases hemp : l.isEmpty
    · rw [if_pos hemp]
      simp [List.isEmpty_iff.mp hemp]
    · rw [if_neg hemp]
      by_cases h10 : 10 < l.length
      · rw [if_pos h10]
        have hdl : (l.drop 10).length ≤ fuel := by
          rw [List.length_drop]
          omega
        simp only [List.map_cons, List.flatten_cons]
        rw [ih (l.drop 10) hdl]
        exact List.take_append_drop 10 l
      · rw [if_neg h10]
        simp

theorem chunkGo_length {α : Type} :
    ∀ (fuel : Nat) (l : List α), l.length ≤ fuel →
      (chunkGo fuel l).length = (l.length + 9) / 10 := by
  intro fuel
  induction fuel with
  | zero =>
    intro l hle
    have : l = [] := List.length_eq_zero.mp (Nat.le_zero.mp hle)
    subst this
    simp [chunkGo]
  | succ fuel ih =>
    intro l hle
    unfold chunkGo
    by_cases hemp : l.isEmpty
    · rw [if_pos hemp]
      have : l = [] := List.isEmpty_iff.mp hemp
      subst this
      simp
    · rw [if_neg hemp]
      have hne : l ≠ [] := by simpa [List.isEmpty_iff] using hemp
      have hpos : 0 < l.length := List.length_pos.mpr hne
      by_cases h10 : 10 < l.length
      · rw [if_pos h10]
        have hdl : (l.drop 10).length ≤ fuel := by
          rw [List.length_drop]
          omega
        simp only [List.length_cons]
        rw [ih (l.drop 10) hdl, List.length_drop]
        omega
      · rw [if_neg h10]
        simp only [List.length_singleton]
        omega

theorem chunkGo_dropLast {α : Type} :
    ∀ (fuel : Nat) (l : List α), l.length ≤ fuel →
      ∀ p ∈ (chunkGo fuel l).dropLast, p.1.length = 10 ∧ p.2 = true := by
  intro fuel
  induction fuel with
  | zero =>
    intro l hle
    have : l = [] := List.length_eq_zero.mp (Nat.le_zero.mp hle)
    subst this
    simp [chunkGo]
  | succ fuel ih =>
    intro l hle
    unfold chunkGo
    by_cases hemp : l.isEmpty
    · rw [if_pos hemp]
      simp
    · rw [if_neg hemp]
      by_cases h10 : 10 < l.length
      · rw [if_pos h10]
        have hdne : l.drop 10 ≠ [] := by
          intro hc
          have := congrArg List.length hc
          simp [List.length_drop] at this
          omega
        have hdl : (l.drop 10).length ≤ fuel := by
          rw [List.length_drop]
          omega
        have hrest : chunkGo fuel (l.drop 10) ≠ [] := chunkGo_ne_nil fuel (l.drop 10) hdne hdl
        rw [List.dropLast_cons_of_ne_nil hrest]
        intro p hp
        rcases List.mem_cons.mp hp with hp | hp
        · subst hp
          constructor
          · simp
            omega
          · rfl
        · exact ih (l.drop 10) hdl p hp
      · rw [if_neg h10]
        simp

theorem chunkGo_getLast {α : Type} :
    ∀ (fuel : Nat) (l : List α), l.length ≤ fuel →
      ∀ p ∈ (chunkGo fuel l).getLast?,
        0 < p.1.length ∧ p.1.length ≤ 10 ∧ p.2 = false := by
  intro fuel
  induction fuel with
  | zero =>
    intro l hle
    have : l = [] := List.length_eq_zero.mp (Nat.le_zero.mp hle)
    subst this
    simp [chunkGo]
  | succ fuel ih =>
    intro l hle
    unfold chunkGo
    by_cases hemp : l.isEmpty
    · rw [if_pos hemp]
      simp
    · rw [if_neg hemp]
      have hne : l ≠ [] := by simpa [List.isEmpty_iff] using hemp
      have hpos : 0 < l.length := List.length_pos.mpr hne
      by_cases h10 : 10 < l.length
      · rw [if_pos h10]
        have hdne : l.drop 10 ≠ [] := by
          intro hc
          have := congrArg List.length hc
          simp [List.length_drop] at this
          omega
        have hdl : (l.drop 10).length ≤ fuel := by
          rw [List.length_drop]
          omega
        have hrest : chunkGo fuel (l.drop 10) ≠ [] := chunkGo_ne_nil fuel (l.drop 10) hdne hdl
        obtain ⟨r, t, hrt⟩ := List.exists_cons_of_ne_nil hrest
        rw [hrt, List.getLast?_cons_cons, ← hrt]
        exact ih (l.drop 10) hdl
      · rw [if_neg h10]
        intro p hp
        simp only [List.getLast?_singleton, Option.mem_def, Option.some.injEq] at hp
        subst hp
        exact ⟨hpos, (by omega : l.length ≤ 10), rfl⟩

/-- C7: the chunked claim-slot loop over `k` still-connected clients with
chunk size 10 produces exactly `ceil(k/10)` sequential batches covering the
client list in order, every batch before the last has size 10 and is followed
by the inter-batch delay, the final batch is no larger than 10 and is never
followed by the delay — and for `k = 25` the batches are exactly
(10, 10, 5) with delays after the first two only. -/
theorem claim_slot_chunking :
    (∀ l : List Nat,
      ((chunkLoop l).map Prod.fst).flatten = l
      ∧ (chunkLoop l).length = (l.length + 9) / 10
      ∧ (∀ p ∈ (chunkLoop l).dropLast, p.1.length = 10 ∧ p.2 = true)
      ∧ (∀ p ∈ (chunkLoop l).getLast?,
          0 < p.1.length ∧ p.1.length ≤ 10 ∧ p.2 = false))
    ∧ ((chunkLoop (List.range 25)).map (fun p => p.1.length) = [10, 10, 5]
       ∧ (chunkLoop (List.range 25)).map Prod.snd = [true, true, false]) := by
  refine ⟨fun l => ⟨?_, ?_, ?_, ?_⟩, by decide, by decide⟩
  · exact chunkGo_join l.length l le_rfl
  · exact chunkGo_length l.length l le_rfl
  · exact chunkGo_dropLast l.length l le_rfl
  · exact chunkGo_getLast l.length l le_rfl

/-- Witness for C7 at the spec's `k = 25` example: three batches, and the
first batch (a member of `dropLast`) has size 10 with the delay flag set. -/
theorem claim_slot_chunking_witness :
    (chunkLoop (List.range 25)).length = 3
    ∧ (((List.range 25).take 10, true).1.length = 10
        ∧ (((List.range 25).take 10, true) : List Nat × Bool).2 = true) := by
  have h := claim_slot_chunking
  refine ⟨?_, h.1 (List.range 25) |>.2.2.1 ((List.range 25).take 10, true) (by decide)⟩
  have hl := (h.1 (List.range 25)).2.1
  simpa using hl

/-! ## Trace bookkeeping for the orchestrated run -/

theorem emit_trace_all (A : Action → Bool) (st : SimState) (a : Action) :
    (st.emit a).trace.all A = (st.trace.all A && A a) := by
  simp [SimState.emit, List.all_append]

theorem sleep_trace (st : SimState) (env : Env) : (st.sleep env).trace = st.trace := rfl

theorem fetchPhase_trace (env : Env) (lid : Json) (st : SimState) :
    (fetchPhase env lid st).trace = st.trace := rfl

theorem submitPhase_state (env : Env) (bid : Json) (st : SimState) :
    (submitPhase env bid st).1 = st := rfl

theorem seatStudentStep_trace (env : Env) (lid : Json) (ab : SimState × Nat) (i : Nat) :
    (seatStudentStep env lid ab i).1.trace = ab.1.trace := by
  unfold seatStudentStep
  cases h : ab.1.students[i]? <;> simp

theorem runSeatBatch_trace (env : Env) (lid : Json) :
    ∀ (idxs : List Nat) (acc : SimState × Nat),
      (runSeatBatch env lid acc idxs).1.trace = acc.1.trace := by
  intro idxs
  induction idxs with
  | nil => intro acc; rfl
  | cons i rest ih =>
    intro acc
    unfold runSeatBatch
    rw [List.foldl_cons]
    have h2 := ih (seatStudentStep env lid acc i)
    unfold runSeatBatch at h2
    rw [h2, seatStudentStep_trace]

theorem claimStep_trace_all (env : Env) (lid : Json) (A : Action → Bool)
    (hA1 : ∀ n, A (Action.claimBatch n) = true) (hA2 : A Action.interBatchDelay = true)
    (acc : SimState × Nat) (b : List Nat × Bool)
    (h : acc.1.trace.all A = true) :
    (claimStep env lid acc b).1.trace.all A = true := by
  have hbase :
      (runSeatBatch env lid (acc.1.emit (Action.claimBatch b.1.length), acc.2) b.1).1.trace.all A
        = true := by
    rw [runSeatBatch_trace]
    show (acc.1.emit (Action.claimBatch b.1.length)).trace.all A = true
    rw [emit_trace_all, h, hA1]
    rfl
  unfold claimStep
  by_cases hb : b.2 = true
  · simp only [hb, if_true]
    show (((runSeatBatch env lid (acc.1.emit (Action.claimBatch b.1.length), acc.2) b.1).1.emit
        Action.interBatchDelay).sleep env).trace.all A = true
    rw [sleep_trace, emit_trace_all, hbase, hA2]
    rfl
  · simp only [Bool.not_eq_true] at hb
    simp only [hb, if_false]
    exact hbase

theorem claimFold_trace_all (env : Env) (lid : Json) (A : Action → Bool)
    (hA1 : ∀ n, A (Action.claimBatch n) = true) (hA2 : A Action.interBatchDelay = true) :
    ∀ (bs : List (List Nat × Bool)) (acc : SimState × Nat),
      acc.1.trace.all A = true →
      ((bs.foldl (claimStep env lid) acc).1.trace.all A) = true := by
  intro bs
  induction bs with
  | nil => intro acc h; exact h
  | cons b rest ih =>
    intro acc h
    rw [List.foldl_cons]
    exact ih _ (claimStep_trace_all env lid A hA1 hA2 acc b h)

theorem claimPhase_trace_all (env : Env) (lid : Json) (A : Action → Bool)
    (hA1 : ∀ n, A (Action.claimBatch n) = true) (hA2 : A Action.interBatchDelay = true)
    (st : SimState) (h : st.trace.all A = true) :
    (claimPhase env lid st).1.trace.all A = true := by
  unfold claimPhase
  exact claimFold_trace_all env lid A hA1 hA2 _ (st, 0) h

/-! ## C2 -/

theorem doVerify_all_seated (st : SimState) (k : EventKind) (n : Nat)
    (h : st.trace.all actionVerifySeated = true) :
    (doVerify st k n).trace.all actionVerifySeated = true := by
  unfold doVerify
  simp [List.all_append, h, actionVerifySeated]

theorem teardownPhase_all_seated (st : SimState)
    (h : st.trace.all actionVerifySeated = true) :
    (teardownPhase st).trace.all actionVerifySeated = true := by
  show (st.emit Action.teardown).trace.all actionVerifySeated = true
  rw [emit_trace_all, h]
  rfl

theorem pointsPhase_all_seated (env : Env) (st : SimState)
    (h : st.trace.all actionVerifySeated = true) :
    (pointsPhase env st).trace.all actionVerifySeated = true := by
  simp only [pointsPhase]
  split
  · exact h
  · apply teardownPhase_all_seated
    apply doVerify_all_seated
    rw [sleep_trace, emit_trace_all, h]
    rfl

theorem closePhase_all_seated (env : Env) (st : SimState)
    (h : st.trace.all actionVerifySeated = true) :
    (closePhase env st).trace.all actionVerifySeated = true := by
  unfold closePhase
  split
  · exact h
  · apply pointsPhase_all_seated
    apply doVerify_all_seated
    rw [sleep_trace, emit_trace_all, h]
    rfl

theorem disclosePhase_all_seated (env : Env) (st : SimState)
    (h : st.trace.all actionVerifySeated = true) :
    (disclosePhase env st).trace.all actionVerifySeated = true := by
  unfold disclosePhase
  split
  · exact h
  · apply closePhase_all_seated
    apply doVerify_all_seated
    rw [sleep_trace, emit_trace_all, h]
    rfl

theorem finishPhase_all_seated (env : Env) (st : SimState)
    (h : st.trace.all actionVerifySeated = true) :
    (finishPhase env st).trace.all actionVerifySeated = true := by
  unfold finishPhase
  split
  · exact h
  · apply disclosePhase_all_seated
    apply doVerify_all_seated
    rw [sleep_trace, emit_trace_all, h]
    rfl

theorem quizPhase_all_seated (env : Env) (lid : Json) (bid : Json) (st : SimState)
    (h : st.trace.all actionVerifySeated = true) :
    (quizPhase env lid bid st).trace.all actionVerifySeated = true := by
  unfold quizPhase
  apply finishPhase_all_seated
  rw [sleep_trace, emit_trace_all]
  have hs : ((submitPhase env bid ((fetchPhase env lid st).sleep env)).1).trace.all
      actionVerifySeated = true := by
    rw [submitPhase_state, sleep_trace, fetchPhase_trace]
    exact h
  rw [hs]
  rfl

theorem batchPhase_all_seated (env : Env) (lid : Json) (st : SimState)
    (h : st.trace.all actionVerifySeated = true) :
    (batchPhase env lid st).trace.all actionVerifySeated = true := by
  unfold batchPhase
  split
  · exact h
  · next batchOpt heq =>
    by_cases hb : pyTruthy batchOpt = true
    · simp only [hb, if_true]
      apply quizPhase_all_seated
      apply doVerify_all_seated
      rw [sleep_trace, emit_trace_all, h]
      rfl
    · simp only [Bool.not_eq_true] at hb
      simp only [hb, if_false]
      show (st.emit (Action.createBatch false)).trace.all actionVerifySeated = true
      rw [emit_trace_all, h]
      rfl

theorem seatPhase_all_seated (env : Env) (lid : Json) (st : SimState)
    (h : st.trace.all actionVerifySeated = true) :
    (seatPhase env lid st).trace.all actionVerifySeated = true := by
  simp only [seatPhase]
  have hcp := claimPhase_trace_all env lid actionVerifySeated
    (fun _ => rfl) rfl st h
  have hstep : ((((claimPhase env lid st).1.emit
      (Action.claimDone (claimPhase env lid st).2)).sleep env).sleep env).trace.all
      actionVerifySeated = true := by
    rw [sleep_trace, sleep_trace, emit_trace_all, hcp]
    rfl
  by_cases hw : env.waitBeforeCreateBatch = true
  · simp only [hw, if_true]
    apply batchPhase_all_seated
    rw [sleep_trace]
    exact hstep
  · simp only [Bool.not_eq_true] at hw
    simp only [hw, if_false]
    exact batchPhase_all_seated env lid _ hstep

theorem connectPhase_all_seated (env : Env) (lid : Json) (st : SimState)
    (h : st.trace.all actionVerifySeated = true) :
    (connectPhase env lid st).trace.all actionVerifySeated = true := by
  simp only [connectPhase]
  have hst2 : ((({ st with students := (connectResults env).map Prod.fst } : SimState).emit
      (Action.spawn env.num_students)).emit
      (Action.connectDone (connectedCountOf env))).trace.all actionVerifySeated = true := by
    rw [emit_trace_all, emit_trace_all]
    have : ({ st with students := (connectResults env).map Prod.fst } : SimState).trace.all
        actionVerifySeated = true := h
    rw [this]
    rfl
  by_cases hz : connectedCountOf env = 0
  · rw [hz] at hst2
    simp only [hz, if_true]
    simpa using hst2
  · simp only [hz, if_false]
    apply seatPhase_all_seated
    rw [sleep_trace]
    exact hst2

/-- C2 (amended): at every verification point of the orchestrated run, the
expected audience passed to `assert_all_received` is recomputed at that
moment as exactly the seated set — the identities of clients whose
`ClientIdentity` is truthy (non-null and non-empty, the source's
`if s.student_id` filter) — never the full spawned population and never the
currently-connected subset. -/
theorem verify_audience_is_momentary_seated_set (env : Env) :
    (run_simulation env).trace.all actionVerifySeated = true := by
  unfold run_simulation
  split
  · rfl
  · next lessonOpt heq =>
    by_cases hp : pyTruthy lessonOpt = true
    · simp only [hp, if_true]
      apply connectPhase_all_seated
      rw [sleep_trace, emit_trace_all]
      rfl
    · simp only [Bool.not_eq_true] at hp
      simp only [hp, if_false]
      show ((⟨[], EventTracker.empty, 0, []⟩ : SimState).emit
          (Action.createLesson false)).trace.all actionVerifySeated = true
      rfl

/-- C2 counterexample: in the run `envCE` the single client's claim succeeds
with the empty string as its server-assigned identity — a non-null
`ClientIdentity` — yet every verification point's expected set excludes it,
so the expected audience is not the set of identities of clients holding a
non-null `ClientIdentity`. -/
theorem verify_audience_not_nonnull_set :
    (run_simulation envCE).trace.all actionVerifyNonNull = false := by decide

/-! ## C3 -/

theorem batchPhase_nopost (env : Env) (lid : Json) (st : SimState)
    (hb : Teacher.create_batch_quizzes env.batchHttp = Except.ok none)
    (h : st.trace.all (fun a => !(isPostBatchAction a)) = true) :
    (batchPhase env lid st).trace.all (fun a => !(isPostBatchAction a)) = true := by
  simp only [batchPhase, hb]
  have hf : pyTruthy none = false := rfl
  simp only [hf, if_false]
  show (st.emit (Action.createBatch false)).trace.all (fun a => !(isPostBatchAction a)) = true
  rw [emit_trace_all, h]
  rfl

theorem seatPhase_nopost (env : Env) (lid : Json) (st : SimState)
    (hb : Teacher.create_batch_quizzes env.batchHttp = Except.ok none)
    (h : st.trace.all (fun a => !(isPostBatchAction a)) = true) :
    (seatPhase env lid st).trace.all (fun a => !(isPostBatchAction a)) = true := by
  simp only [seatPhase]
  have hcp := claimPhase_trace_all env lid (fun a => !(isPostBatchAction a))
    (fun _ => rfl) rfl st h
  have hstep : ((((claimPhase env lid st).1.emit
      (Action.claimDone (claimPhase env lid st).2)).sleep env).sleep env).trace.all
      (fun a => !(isPostBatchAction a)) = true := by
    rw [sleep_trace, sleep_trace, emit_trace_all, hcp]
    rfl
  by_cases hw : env.waitBeforeCreateBatch = true
  · simp only [hw, if_true]
    apply batchPhase_nopost env lid _ hb
    rw [sleep_trace]
    exact hstep
  · simp only [Bool.not_eq_true] at hw
    simp only [hw, if_false]
    exact batchPhase_nopost env lid _ hb hstep

theorem connectPhase_nopost (env : Env) (lid : Json) (st : SimState)
    (hb : Teacher.create_batch_quizzes env.batchHttp = Except.ok none)
    (h : st.trace.all (fun a => !(isPostBatchAction a)) = true) :
    (connectPhase env lid st).trace.all (fun a => !(isPostBatchAction a)) = true := by
  simp only [connectPhase]
  have hst2 : ((({ st with students := (connectResults env).map Prod.fst } : SimState).emit
      (Action.spawn env.num_students)).emit
      (Action.connectDone (connectedCountOf env))).trace.all
      (fun a => !(isPostBatchAction a)) = true := by
    rw [emit_trace_all, emit_trace_all]
    have hbase : ({ st with students := (connectResults env).map Prod.fst } : SimState).trace.all
        (fun a => !(isPostBatchAction a)) = true := h
    rw [hbase]
    rfl
  by_cases hz : connectedCountOf env = 0
  · rw [hz] at hst2
    simp only [hz, if_true]
    simpa using hst2
  · simp only [hz, if_false]
    apply seatPhase_nopost env lid _ hb
    rw [sleep_trace]
    exact hst2

/-- C3 (amended): when the instructor's create-quiz-batch call fails
(returns the null sentinel), the orchestrator records the failure and then
aborts the entire run — the source logs "Failed to create batch quizzes.
Aborting." and returns — so no later phase (verification, fetch/submit,
finish, disclose, close, award-points, teardown) executes. -/
theorem batch_quiz_failure_aborts_run (env : Env)
    (hb : Teacher.create_batch_quizzes env.batchHttp = Except.ok none) :
    (run_simulation env).trace.all (fun a => !(isPostBatchAction a)) = true := by
  unfold run_simulation
  split
  · rfl
  · next lessonOpt heq =>
    by_cases hp : pyTruthy lessonOpt = true
    · simp only [hp, if_true]
      apply connectPhase_nopost env _ _ hb
      rw [sleep_trace, emit_trace_all]
      rfl
    · simp only [Bool.not_eq_true] at hp
      simp only [hp, if_false]
      show ((⟨[], EventTracker.empty, 0, []⟩ : SimState).emit
          (Action.createLesson false)).trace.all (fun a => !(isPostBatchAction a)) = true
      rfl

/-- C3 counterexample: in the run `envC3` — lesson created, one student
connected and seated — the create-quiz-batch call fails and the trace ends at
the recorded failure: the remaining phases (verification, fetch/submit,
status updates, award-points, teardown) are not executed, refuting the claim
that the run continues with degraded reporting. -/
theorem run_ends_at_batch_failure :
    (run_simulation envC3).trace
      = [Action.createLesson true, Action.spawn 1, Action.connectDone 1,
         Action.claimBatch 1, Action.claimDone 1, Action.createBatch false] := by
  decide

/-- Witness for C3 (amended) at the concrete run `envC3`. -/
theorem batch_quiz_failure_aborts_run_witness :
    (run_simulation envC3).trace.all (fun a => !(isPostBatchAction a)) = true :=
  batch_quiz_failure_aborts_run envC3 rfl

/-! ## C8 -/

/-- C8: the two fatal preconditions abort the run. If instructor session
creation returns the null sentinel, the run stops immediately with zero
student clients spawned (the resulting trace holds only the failed
create-lesson step and the student list is empty, so no connect or claim was
attempted); and if zero of the spawned students connect successfully, the
run stops right after the connect tally, before the claim-slot phase; in
both cases no later phase appears in the trace. -/
theorem fatal_preconditions_abort :
    (∀ env : Env, Teacher.create_lesson env.lessonHttp = Except.ok none →
      (run_simulation env).trace = [Action.createLesson false]
      ∧ (run_simulation env).students = [])
    ∧ (∀ (env : Env) (lv : Json),
        Teacher.create_lesson env.lessonHttp = Except.ok (some lv) → lv.truthy = true →
        connectedCountOf env = 0 →
        (run_simulation env).trace
          = [Action.createLesson true, Action.spawn env.num_students,
             Action.connectDone 0]) := by
  constructor
  · intro env h
    simp only [run_simulation, h]
    have hf : pyTruthy none = false := rfl
    simp only [hf, if_false]
    exact ⟨rfl, rfl⟩
  · intro env lv h1 h2 h3
    simp only [run_simulation, h1]
    have ht : pyTruthy (some lv) = true := by simpa [pyTruthy] using h2
    simp only [ht, if_true]
    simp only [connectPhase, h3]
    rfl

/-- Witness for C8: with a failing create-lesson call the run's whole trace
is the failed step and no student exists; with both spawned students failing
to connect the run stops at the zero connect tally. -/
theorem fatal_preconditions_abort_witness :
    (run_simulation envC8a).trace = [Action.createLesson false]
    ∧ (run_simulation envC8a).students = []
    ∧ (run_simulation envC8b).trace
        = [Action.createLesson true, Action.spawn 2, Action.connectDone 0] := by
  have h := fatal_preconditions_abort
  refine ⟨(h.1 envC8a rfl).1, (h.1 envC8a rfl).2, ?_⟩
  have h2 := h.2 envC8b (Json.str "L1") rfl (by decide) (by decide)
  simpa using h2

end ClassroomSim
